import Mathlib

/-!
Verification of `cloudant/_common_util.py` (python-cloudant).

This file shallowly embeds the parameter validation/translation codec
(`py_to_couch_validate`, `_py_to_couch_translate`, `python_to_couch`,
`feed_arg_types`), the session state machines (`CookieSession.request`,
`IAMSession.request`, `IAMSession._get_access_token`) and the Cloud
Foundry service-binding discovery (`CloudFoundryService.__init__`), and
proves the specified properties about them.

Python values relevant to the codec are modelled by the closed inductive
type `PyVal`.  The embedding follows Python 3 semantics of the `_2to3`
shims: `LONGTYPE = int`, `STRTYPE = str`, `UNITYPE = str`,
`NONETYPE = type(None)`.  `bool` is a subclass of `int`, and
`str`/`list`/`tuple` are registered instances of `collections.Sequence`.
-/

namespace Cloudant

/-- A Python runtime value, restricted to the kinds the codec can meet.
`VFloat` and `VDict` stand for values of types absent from
`TYPE_CONVERTERS` ("any other runtime type"); their payloads are opaque. -/
inductive PyVal where
  | VStr (s : String)
  | VInt (n : Int)
  | VBool (b : Bool)
  | VNone
  | VList (xs : List PyVal)
  | VTuple (xs : List PyVal)
  | VFloat (q : Nat)
  | VDict

/-- The errors raised by the codec: `CloudantArgumentError` with codes
116 (unknown option), 117 (invalid type), 134 (invalid keys-list item),
135 (invalid stale value), 136 (conversion failure). -/
inductive CloudantError where
  | unknownOption (key : String)
  | invalidType (key : String)
  | invalidKeyListItem
  | invalidStaleValue (val : PyVal)
  | conversionError (key : String)

/-- A Python type reference as it appears in the argument-type tables.
`tInt` covers both `int` and `LONGTYPE` (aliases under Python 3). -/
inductive TypeRef where
  | tBool
  | tInt
  | tStr
  | tSeq
  | tNone
  | tList
deriving DecidableEq

/-- Python `isinstance(v, t)` for the modelled values and type refs.
`bool` is a subclass of `int`; `str`, `list` and `tuple` are instances
of `collections.Sequence`; nothing else here is. -/
def isinst : PyVal → TypeRef → Bool
  | .VBool _, .tBool => true
  | .VBool _, .tInt => true
  | .VInt _, .tInt => true
  | .VStr _, .tStr => true
  | .VStr _, .tSeq => true
  | .VList _, .tSeq => true
  | .VTuple _, .tSeq => true
  | .VList _, .tList => true
  | .VNone, .tNone => true
  | _, _ => false

/-- `isinstance(v, tys)` against a tuple of type references. -/
def isInstanceOf (v : PyVal) (tys : List TypeRef) : Bool :=
  tys.any (isinst v)

/-- `type(v) is bool`. -/
def isBool : PyVal → Bool
  | .VBool _ => true
  | _ => false

/-- `RESULT_ARG_TYPES`: the recognized result-option keys with their
declared acceptable types (source lines 52-68). -/
def resultArgTypes : String → Option (List TypeRef)
  | "descending" => some [.tBool]
  | "endkey" => some [.tInt, .tStr, .tSeq]
  | "endkey_docid" => some [.tStr]
  | "group" => some [.tBool]
  | "group_level" => some [.tInt, .tNone]
  | "include_docs" => some [.tBool]
  | "inclusive_end" => some [.tBool]
  | "key" => some [.tInt, .tStr, .tSeq]
  | "keys" => some [.tList]
  | "limit" => some [.tInt, .tNone]
  | "reduce" => some [.tBool]
  | "skip" => some [.tInt, .tNone]
  | "stale" => some [.tStr]
  | "startkey" => some [.tInt, .tStr, .tSeq]
  | "startkey_docid" => some [.tStr]
  | _ => none

/-- The declared types of the `"key"` option, reused by the `"keys"`
element check. -/
def keyArgTypes : List TypeRef := [.tInt, .tStr, .tSeq]

/-- One element of a `"keys"` list is acceptable when it satisfies the
`"key"` type constraint and is not a boolean. -/
def validKeysItem (e : PyVal) : Bool :=
  isInstanceOf e keyArgTypes && !(isBool e)

/-- `py_to_couch_validate(key, val)` (source lines 174-193). -/
def pyToCouchValidate (key : String) (val : PyVal) : Except CloudantError Unit :=
  match resultArgTypes key with
  | none => .error (.unknownOption key)
  | some tys =>
    if !(isInstanceOf val tys) || (isBool val && tys.contains .tInt) then
      .error (.invalidType key)
    else if key == "keys" then
      match val with
      | .VList xs =>
        if xs.all validKeysItem then .ok () else .error .invalidKeyListItem
      | _ => .ok ()
    else if key == "stale" then
      match val with
      | .VStr s =>
        if s == "ok" || s == "update_after" then .ok ()
        else .error (.invalidStaleValue (.VStr s))
      | v => .error (.invalidStaleValue v)
    else .ok ()

/-- One character of Python `json.dumps` string escaping. -/
def jsonEscapeChar (c : Char) : String :=
  if c = '"' then "\\\""
  else if c = '\\' then "\\\\"
  else if c = '\n' then "\\n"
  else if c = '\t' then "\\t"
  else if c = '\r' then "\\r"
  else String.singleton c

/-- `json.dumps` on a Python string. -/
def jsonQuote (s : String) : String :=
  "\"" ++ String.join (s.toList.map jsonEscapeChar) ++ "\""

mutual

/-- `json.dumps` on a modelled Python value (default separators). -/
def jsonDumps : PyVal → String
  | .VStr s => jsonQuote s
  | .VInt n => toString n
  | .VBool b => if b then "true" else "false"
  | .VNone => "null"
  | .VList xs => "[" ++ jsonDumpsList xs ++ "]"
  | .VTuple xs => "[" ++ jsonDumpsList xs ++ "]"
  | .VFloat q => toString q ++ ".0"
  | .VDict => "\x7b\x7d"

/-- Comma-joined `json.dumps` of list elements. -/
def jsonDumpsList : List PyVal → String
  | [] => ""
  | [x] => jsonDumps x
  | x :: y :: rest => jsonDumps x ++ ", " ++ jsonDumpsList (y :: rest)

end

/-- `TYPE_CONVERTERS.get(type(val))` followed by application (source
lines 71-82).  Lookup is by the exact runtime type, so only the
`str`, `list`, `tuple`, `int`, `bool` and `NoneType` entries are
reachable (the abstract `Sequence` key never equals a `type(val)`);
`tuple` is serialized via `list(x)`.  A type absent from the table
yields `none` (in Python, calling the `None` lookup result raises,
which the caller wraps). -/
def typeConverter (val : PyVal) : Option PyVal :=
  match val with
  | .VStr s => some (.VStr (jsonQuote s))
  | .VList xs => some (.VStr (jsonDumps (.VList xs)))
  | .VTuple xs => some (.VStr (jsonDumps (.VList xs)))
  | .VInt n => some (.VInt n)
  | .VBool b => some (.VStr (if b then "true" else "false"))
  | .VNone => some .VNone
  | .VFloat _ => none
  | .VDict => none

/-- The keys `_py_to_couch_translate` passes through unchanged. -/
def passthroughKeys : List String :=
  ["keys", "endkey_docid", "startkey_docid", "stale"]

/-- `_py_to_couch_translate(key, val)` (source lines 195-208): returns
the single translated pair, or `CloudantArgumentError(136, ...)` when
the type-dispatch fails. -/
def pyToCouchTranslate (key : String) (val : PyVal) :
    Except CloudantError (String × PyVal) :=
  if passthroughKeys.contains key then .ok (key, val)
  else
    match val with
    | .VNone => .ok (key, .VNone)
    | v =>
      match typeConverter v with
      | some w => .ok (key, w)
      | none => .error (.conversionError key)

/-- `python_to_couch(options)` (source lines 154-172): validate then
translate each entry in order, accumulating the translated mapping.
The Python input dict is never mutated; the embedding is pure, with the
dict modelled as an association list in iteration order. -/
def pythonToCouch : List (String × PyVal) →
    Except CloudantError (List (String × PyVal))
  | [] => .ok []
  | (key, val) :: rest =>
    match pyToCouchValidate key val with
    | .error e => .error e
    | .ok _ =>
      match pyToCouchTranslate key val with
      | .error e => .error e
      | .ok kv =>
        match pythonToCouch rest with
        | .error e => .error e
        | .ok tail => .ok (kv :: tail)

/-- `_COUCH_DB_UPDATES_ARG_TYPES` (source lines 84-88). -/
def couchDbUpdatesArgTypes : List (String × List TypeRef) :=
  [("feed", [.tStr]),
   ("heartbeat", [.tBool]),
   ("timeout", [.tInt, .tNone])]

/-- `_DB_UPDATES_ARG_TYPES` (source lines 90-96): its own three keys,
then `.update(_COUCH_DB_UPDATES_ARG_TYPES)`, then `heartbeat`
overridden to `(int, LONGTYPE, NONETYPE)`. -/
def dbUpdatesArgTypes : List (String × List TypeRef) :=
  [("descending", [.tBool]),
   ("limit", [.tInt, .tNone]),
   ("since", [.tInt, .tStr]),
   ("feed", [.tStr]),
   ("heartbeat", [.tInt, .tNone]),
   ("timeout", [.tInt, .tNone])]

/-- `_CHANGES_ARG_TYPES` (source lines 98-105): its own five keys, then
`.update(_DB_UPDATES_ARG_TYPES)`. -/
def changesArgTypes : List (String × List TypeRef) :=
  [("conflicts", [.tBool]),
   ("doc_ids", [.tList]),
   ("filter", [.tStr]),
   ("include_docs", [.tBool]),
   ("style", [.tStr]),
   ("descending", [.tBool]),
   ("limit", [.tInt, .tNone]),
   ("since", [.tInt, .tStr]),
   ("feed", [.tStr]),
   ("heartbeat", [.tInt, .tNone]),
   ("timeout", [.tInt, .tNone])]

/-- `feed_arg_types(feed_type)` (source lines 144-152). -/
def feedArgTypes (feedType : String) : List (String × List TypeRef) :=
  if feedType == "Cloudant" then dbUpdatesArgTypes
  else if feedType == "CouchDB" then couchDbUpdatesArgTypes
  else changesArgTypes

/-!
Session state machines.  The HTTP transport is modelled by an oracle
`responses : Nat → HttpResponse` giving the response to the n-th
issuance of the one request under consideration; `login()` is abstract
and its calls are counted.  A response's JSON body is modelled only by
its parsed `error` field (`parsedError`); responses whose body fails to
parse as JSON are outside this model (on a 403 the code would propagate
the JSON decode error instead of renewing).
-/

/-- An HTTP response: status code and the `error` field of its parsed
JSON body (`none` when absent). -/
structure HttpResponse where
  status : Nat
  parsedError : Option String
deriving DecidableEq, Repr

/-- The observable outcome of one `request` call: the response returned
to the caller, how many times `login()` ran, and how many times the
request was issued to the transport. -/
structure RequestTrace where
  response : HttpResponse
  loginCalls : Nat
  requestsIssued : Nat
deriving DecidableEq, Repr

/-- The expiry test of `CookieSession.request` (source lines 361-365):
status 403 with parsed body `error == "credentials_expired"`, or
status 401. -/
def isExpiredResp (r : HttpResponse) : Bool :=
  (r.status == 403 && r.parsedError == some "credentials_expired") ||
    r.status == 401

/-- `CookieSession.request(method, url, **kwargs)` (source lines
351-371): issue; return as-is when `auto_renew` is off; otherwise on
the expiry test call `login()` once, reissue once, and return that
second response unconditionally. -/
def cookieSessionRequest (autoRenew : Bool) (responses : Nat → HttpResponse) :
    RequestTrace :=
  let resp := responses 0
  if !autoRenew then ⟨resp, 0, 1⟩
  else if isExpiredResp resp then ⟨responses 1, 1, 2⟩
  else ⟨resp, 0, 1⟩

/-- A cookie in the transport's cookie store. -/
structure Cookie where
  name : String
  expired : Bool
deriving DecidableEq, Repr

/-- `self.cookies.clear_expired_cookies()`. -/
def clearExpiredCookies (cs : List Cookie) : List Cookie :=
  cs.filter (fun c => !c.expired)

/-- The outcome of one `IAMSession.request` call; `cookiesAtIssue` is
the cookie store as it stands after the expired-cookie sweep, when the
first issuance happens (cookies later set by `login()`'s server
round-trip are not modelled; they do not affect this call's control
flow). -/
structure IamTrace where
  response : HttpResponse
  loginCalls : Nat
  requestsIssued : Nat
  cookiesAtIssue : List Cookie
deriving DecidableEq, Repr

/-- `IAMSession.request(method, url, **kwargs)` (source lines 419-437):
clear expired cookies; if `auto_renew` and no `IAMSession` cookie is
held, `login()` proactively; issue; return as-is when `auto_renew` is
off; otherwise on status 401 call `login()`, reissue once, and return
that second response unconditionally. -/
def iamSessionRequest (autoRenew : Bool) (cookies : List Cookie)
    (responses : Nat → HttpResponse) : IamTrace :=
  let cs := clearExpiredCookies cookies
  let pre : Nat :=
    if autoRenew && !((cs.map Cookie.name).contains "IAMSession") then 1 else 0
  let resp := responses 0
  if !autoRenew then ⟨resp, pre, 1, cs⟩
  else if resp.status == 401 then ⟨responses 1, pre + 1, 2, cs⟩
  else ⟨resp, pre, 1, cs⟩

/-- The parsed JSON body of a token-service response: the fields
`_get_access_token` reads. -/
structure TokenBody where
  errorMessage : Option String
  accessToken : Option String
deriving DecidableEq, Repr

/-- The transport-level outcome of the `POST {token_url}` call:
either a `RequestException` raised by the call itself, or a response
with a status code and a JSON body (`none` = body not valid JSON). -/
inductive TokenServiceOutcome where
  | transportError
  | response (status : Nat) (body : Option TokenBody)
deriving DecidableEq, Repr

/-- The errors observable from `_get_access_token`:
`CloudantException(msg)`, an uncaught JSON decode error (`ValueError`),
or a raw transport exception escaping (never produced — the code
catches `RequestException`). -/
inductive IamError where
  | cloudantException (msg : String)
  | valueErrorUncaught
  | rawRequestException
deriving DecidableEq, Repr

/-- The generic message used when no server error message is at hand. -/
def genericTokenErr : String := "Failed to contact IAM token service"

/-- The message raised on a missing `access_token` field. -/
def invalidTokenRespMsg : String := "Invalid response from IAM token service"

/-- `IAMSession._get_access_token()` (source lines 439-465): POST to
the token service; refine the error message from the body's
`errorMessage`; `raise_for_status` (an `HTTPError`, a
`RequestException`, on status >= 400); read `access_token`.
`RequestException` is caught and re-raised as `CloudantException(err)`;
`KeyError` as `CloudantException(invalidTokenRespMsg)`; a JSON decode
failure at `resp.json()` propagates uncaught. -/
def getAccessToken (outcome : TokenServiceOutcome) : Except IamError String :=
  match outcome with
  | .transportError => .error (.cloudantException genericTokenErr)
  | .response status body =>
    match body with
    | none => .error .valueErrorUncaught
    | some b =>
      let err := b.errorMessage.getD genericTokenErr
      if status ≥ 400 then .error (.cloudantException err)
      else
        match b.accessToken with
        | some tok => .ok tok
        | none => .error (.cloudantException invalidTokenRespMsg)

/-!
Cloud Foundry service-binding discovery (`CloudFoundryService.__init__`,
source lines 471-504).
-/

/-- The credentials block of a listed service; `none` fields model
missing dictionary keys. -/
structure CFCredentials where
  host : Option String
  username : Option String
  password : Option String
  port : Option Nat
deriving DecidableEq, Repr

/-- One service entry of the `cloudantNoSQLDB` list: `service.get('name')`
(`none` = no name field) and `service['credentials']` (`none` = key
missing). -/
structure CFServiceEntry where
  name : Option String
  credentials : Option CFCredentials
deriving DecidableEq, Repr

/-- The `VCAP_SERVICES` input: either a string that fails `json.loads`,
or a parsed mapping with its `cloudantNoSQLDB` list (defaulted to `[]`
when the key is absent). -/
inductive VcapServices where
  | malformed
  | parsed (services : List CFServiceEntry)
deriving DecidableEq, Repr

/-- `ConfigurationError`: every failure of `CloudFoundryService.__init__`
is a `CloudantException` with one of these messages. -/
inductive CFError where
  | configurationError (msg : String)
deriving DecidableEq, Repr

/-- The fields a successfully constructed `CloudFoundryService` holds. -/
structure CFService where
  host : String
  username : String
  password : String
  port : Nat
deriving DecidableEq, Repr

/-- The loop condition of `CloudFoundryService.__init__`: take the first
service with `use_first or service.get('name') == name`; note Python's
`service.get('name') == name` compares `None == None` as true, so with
no name given a service lacking a name field matches. -/
def cfFindService (services : List CFServiceEntry) (useFirst : Bool)
    (name : Option String) : Option CFServiceEntry :=
  services.find? (fun s => useFirst || s.name == name)

/-- `CloudFoundryService.__init__(vcap_services, name)` (source lines
471-504): parse, select a service, extract `host`, `password`, `port`
(default 443), `username`; missing-key (`KeyError`) failures and the
no-match and JSON failures become `CloudantException`s.  Fields are read
in source order, so the first missing one names the error. -/
def cloudFoundryService (vcap : VcapServices) (name : Option String) :
    Except CFError CFService :=
  match vcap with
  | .malformed => .error (.configurationError "Failed to decode VCAP_SERVICES JSON")
  | .parsed services =>
    let useFirst := name.isNone && services.length == 1
    match cfFindService services useFirst name with
    | none => .error (.configurationError "Missing service in VCAP_SERVICES")
    | some s =>
      match s.credentials with
      | none => .error (.configurationError "Invalid service: credentials missing")
      | some c =>
        match c.host with
        | none => .error (.configurationError "Invalid service: host missing")
        | some h =>
          match c.password with
          | none => .error (.configurationError "Invalid service: password missing")
          | some pw =>
            let port := c.port.getD 443
            match c.username with
            | none => .error (.configurationError "Invalid service: username missing")
            | some u => .ok ⟨h, u, pw, port⟩

/-! Theorems. -/

/-- Helper: a successful `_py_to_couch_translate` keeps the option key. -/
theorem pyToCouchTranslate_key (key : String) (val : PyVal)
    (kv : String × PyVal) (h : pyToCouchTranslate key val = .ok kv) :
    kv.1 = key := by
  unfold pyToCouchTranslate at h
  split at h
  · cases h; rfl
  · split at h
    · cases h; rfl
    · split at h
      · cases h; rfl
      · cases h

/-- C3: `py_to_couch_validate` rejects unrecognized keys with
`UnknownOption`; for a recognized key it raises `InvalidType` exactly
when the value is not an instance of the declared types or is a boolean
while the declared types include `int`; for keys without extra checks
(everything but `"keys"`/`"stale"`) it accepts exactly the remaining
values; in particular `skip=True` is rejected and `skip=5` accepted. -/
theorem validate_option_types :
    (∀ key val, resultArgTypes key = none →
      pyToCouchValidate key val = .error (.unknownOption key)) ∧
    (∀ key tys val, resultArgTypes key = some tys →
      (pyToCouchValidate key val = .error (.invalidType key) ↔
        (!(isInstanceOf val tys) || (isBool val && tys.contains .tInt)) = true)) ∧
    (∀ key tys val, resultArgTypes key = some tys →
      key ≠ "keys" → key ≠ "stale" →
      (pyToCouchValidate key val = .ok () ↔
        (isInstanceOf val tys && !(isBool val && tys.contains .tInt)) = true)) ∧
    pyToCouchValidate "skip" (.VBool true) = .error (.invalidType "skip") ∧
    pyToCouchValidate "skip" (.VInt 5) = .ok () := by
  refine ⟨?_, ?_, ?_, rfl, rfl⟩
  · intro key val h
    simp [pyToCouchValidate, h]
  · intro key tys val h
    simp only [pyToCouchValidate, h]
    by_cases hc : (!(isInstanceOf val tys) || (isBool val && tys.contains .tInt)) = true
    · rw [if_pos hc]
      exact iff_of_true rfl hc
    · have hcf : (!(isInstanceOf val tys) || (isBool val && tys.contains .tInt)) = false := by
        cases hval : (!(isInstanceOf val tys) || (isBool val && tys.contains .tInt)) with
        | false => rfl
        | true => exact absurd hval hc
      rw [if_neg hc, hcf]
      simp only [Bool.false_eq_true, iff_false]
      split
      · split
        · split <;> simp
        · simp
      · split
        · split
          · split <;> simp
          · simp
        · simp
  · intro key tys val h hkeys hstale
    have h1 : (key == "keys") = false := by
      simp [hkeys]
    have h2 : (key == "stale") = false := by
      simp [hstale]
    have hrhs : ((isInstanceOf val tys && !(isBool val && tys.contains .tInt)) = true) ↔
        ((!(isInstanceOf val tys) || (isBool val && tys.contains .tInt)) = false) := by
      cases isInstanceOf val tys <;>
        cases (isBool val && tys.contains TypeRef.tInt) <;> simp
    rw [hrhs]
    simp only [pyToCouchValidate, h]
    by_cases hc : (!(isInstanceOf val tys) || (isBool val && tys.contains .tInt)) = true
    · rw [if_pos hc]
      exact iff_of_false (by simp) (by rw [hc]; simp)
    · have hcf : (!(isInstanceOf val tys) || (isBool val && tys.contains .tInt)) = false := by
        cases hval : (!(isInstanceOf val tys) || (isBool val && tys.contains .tInt)) with
        | false => rfl
        | true => exact absurd hval hc
      rw [if_neg hc]
      exact iff_of_true (by simp [h1, h2]) hcf

/-- C3 witness. -/
theorem validate_option_types_witness :
    pyToCouchValidate "bogus" .VNone = .error (.unknownOption "bogus") ∧
    pyToCouchValidate "descending" (.VBool true) = .ok () :=
  ⟨validate_option_types.1 "bogus" .VNone rfl,
   (validate_option_types.2.2.1 "descending" [.tBool] (.VBool true) rfl
      (by decide) (by decide)).mpr (by decide)⟩

/-- C2: for a non-passthrough key, `_py_to_couch_translate` dispatches
on the value's runtime type: strings, lists and tuples are
JSON-serialized, booleans become the literal strings `"true"`/`"false"`,
integers pass through unchanged, and any other runtime type fails with
the conversion error; in particular `include_docs=True` translates to
`"true"`, `limit=5` to `5`, and `key="foo"` to the JSON-quoted
`"\"foo\""`. -/
theorem translate_type_dispatch (key : String)
    (hk : passthroughKeys.contains key = false) :
    (∀ s, pyToCouchTranslate key (.VStr s) = .ok (key, .VStr (jsonQuote s))) ∧
    (∀ xs, pyToCouchTranslate key (.VList xs) =
      .ok (key, .VStr (jsonDumps (.VList xs)))) ∧
    (∀ xs, pyToCouchTranslate key (.VTuple xs) =
      .ok (key, .VStr (jsonDumps (.VList xs)))) ∧
    (∀ b, pyToCouchTranslate key (.VBool b) =
      .ok (key, .VStr (if b then "true" else "false"))) ∧
    (∀ n, pyToCouchTranslate key (.VInt n) = .ok (key, .VInt n)) ∧
    (∀ q, pyToCouchTranslate key (.VFloat q) = .error (.conversionError key)) ∧
    (pyToCouchTranslate key .VDict = .error (.conversionError key)) ∧
    pythonToCouch [("include_docs", .VBool true)] =
      .ok [("include_docs", .VStr "true")] ∧
    pythonToCouch [("limit", .VInt 5)] = .ok [("limit", .VInt 5)] ∧
    pythonToCouch [("key", .VStr "foo")] = .ok [("key", .VStr "\"foo\"")] := by
  have hk2 : key ∉ passthroughKeys := by simpa using hk
  refine ⟨?_, ?_, ?_, ?_, ?_, ?_, ?_, rfl, rfl, rfl⟩ <;>
    intros <;> simp [pyToCouchTranslate, typeConverter, hk2]

/-- C2 witness. -/
theorem translate_type_dispatch_witness :
    pyToCouchTranslate "limit" (.VInt 5) = .ok ("limit", .VInt 5) ∧
    pyToCouchTranslate "include_docs" (.VBool true) =
      .ok ("include_docs", .VStr "true") :=
  ⟨(translate_type_dispatch "limit" (by decide)).2.2.2.2.1 5,
   (translate_type_dispatch "include_docs" (by decide)).2.2.2.1 true⟩

/-- C7: `validate("keys", v)` succeeds exactly when `v` is a list all
of whose elements satisfy the `"key"` type constraint and are not
booleans; a list with a violating element fails with
`InvalidKeyListItem`. -/
theorem validate_keys_list (val : PyVal) :
    (pyToCouchValidate "keys" val = .ok () ↔
      ∃ xs, val = .VList xs ∧ xs.all validKeysItem = true) ∧
    (∀ xs, val = .VList xs → xs.all validKeysItem = false →
      pyToCouchValidate "keys" val = .error .invalidKeyListItem) := by
  constructor
  · cases val <;>
      simp [pyToCouchValidate, resultArgTypes, isInstanceOf, isinst, isBool,
        List.all_eq_true]
  · rintro xs rfl hall
    simp [pyToCouchValidate, resultArgTypes, isInstanceOf, isinst, isBool,
      List.all_eq_true] at hall ⊢
    obtain ⟨e, he, hbad⟩ := hall
    exact ⟨e, he, hbad⟩

/-- C7 witness. -/
theorem validate_keys_list_witness :
    pyToCouchValidate "keys" (.VList [.VStr "a", .VInt 2]) = .ok () ∧
    pyToCouchValidate "keys" (.VList [.VBool true]) =
      .error .invalidKeyListItem :=
  ⟨(validate_keys_list _).1.mpr ⟨[.VStr "a", .VInt 2], rfl, by decide⟩,
   (validate_keys_list _).2 [.VBool true] rfl (by decide)⟩

/-- C8: `_py_to_couch_translate` passes the value of `"keys"`,
`"endkey_docid"`, `"startkey_docid"` and `"stale"` through unchanged,
and for every other key passes a `None` value through as `None`; both
rules fire before the runtime-type dispatch. -/
theorem translate_passthrough :
    (∀ key val, passthroughKeys.contains key = true →
      pyToCouchTranslate key val = .ok (key, val)) ∧
    (∀ key, passthroughKeys.contains key = false →
      pyToCouchTranslate key .VNone = .ok (key, .VNone)) := by
  constructor
  · intro key val h
    have h2 : key ∈ passthroughKeys := by simpa using h
    simp [pyToCouchTranslate, h2]
  · intro key h
    have h2 : key ∉ passthroughKeys := by simpa using h
    simp [pyToCouchTranslate, h2]

/-- C8 witness. -/
theorem translate_passthrough_witness :
    pyToCouchTranslate "stale" (.VStr "ok") = .ok ("stale", .VStr "ok") ∧
    pyToCouchTranslate "limit" .VNone = .ok ("limit", .VNone) :=
  ⟨translate_passthrough.1 "stale" (.VStr "ok") (by decide),
   translate_passthrough.2 "limit" (by decide)⟩

/-- C9: the `feed_arg_types("Cloudant")` table is a strict superset by
key of the `feed_arg_types("CouchDB")` table: every CouchDB key occurs
among the Cloudant keys, and some Cloudant key is absent from the
CouchDB keys. -/
theorem feed_arg_types_superset :
    (((feedArgTypes "CouchDB").map Prod.fst).all
      (fun k => ((feedArgTypes "Cloudant").map Prod.fst).contains k)) = true ∧
    (((feedArgTypes "Cloudant").map Prod.fst).any
      (fun k => !(((feedArgTypes "CouchDB").map Prod.fst).contains k))) = true := by
  decide

/-- C10: a successful `python_to_couch` yields a mapping with exactly
the input's keys, in order (no option dropped, renamed or added), and
the empty mapping translates to the empty mapping.  The embedding is a
pure function of the input list, mirroring that the Python input dict
is read but never mutated. -/
theorem python_to_couch_preserves_keys :
    (∀ opts out, pythonToCouch opts = .ok out →
      out.map Prod.fst = opts.map Prod.fst) ∧
    pythonToCouch [] = .ok [] := by
  refine ⟨?_, rfl⟩
  intro opts
  induction opts with
  | nil =>
    intro out h
    simp only [pythonToCouch, Except.ok.injEq] at h
    rw [← h]
  | cons kv rest ih =>
    intro out h
    obtain ⟨k, v⟩ := kv
    simp only [pythonToCouch] at h
    cases hv : pyToCouchValidate k v with
    | error e => rw [hv] at h; cases h
    | ok u =>
      rw [hv] at h
      cases ht : pyToCouchTranslate k v with
      | error e => rw [ht] at h; cases h
      | ok kv2 =>
        rw [ht] at h
        cases hr : pythonToCouch rest with
        | error e => rw [hr] at h; cases h
        | ok tail =>
          rw [hr] at h
          simp only [Except.ok.injEq] at h
          rw [← h]
          simp only [List.map_cons]
          rw [pyToCouchTranslate_key k v kv2 ht, ih tail hr]

/-- C10 witness. -/
theorem python_to_couch_preserves_keys_witness :
    ([(("include_docs" : String), PyVal.VStr "true"),
      ("limit", PyVal.VInt 5)].map Prod.fst) =
      ([(("include_docs" : String), PyVal.VBool true),
        ("limit", PyVal.VInt 5)].map Prod.fst) :=
  python_to_couch_preserves_keys.1
    [("include_docs", .VBool true), ("limit", .VInt 5)]
    [("include_docs", .VStr "true"), ("limit", .VInt 5)] rfl

/-- C1: with `auto_renew` off, `CookieSession.request` returns the
first response as-is and never logs in; with it on, an expired first
response (401, or 403 with error `"credentials_expired"`) triggers
exactly one `login()` and exactly one reissue, and the second response
is returned unconditionally — there is never a third issuance; a
non-expired first response is returned with no login. -/
theorem cookieSession_request_renewal (responses : Nat → HttpResponse) :
    (cookieSessionRequest false responses = ⟨responses 0, 0, 1⟩) ∧
    (isExpiredResp (responses 0) = true →
      cookieSessionRequest true responses = ⟨responses 1, 1, 2⟩) ∧
    (isExpiredResp (responses 0) = false →
      cookieSessionRequest true responses = ⟨responses 0, 0, 1⟩) := by
  refine ⟨rfl, ?_, ?_⟩ <;> intro h <;> simp [cookieSessionRequest, h]

/-- C1 witness: both issuances yield 401 — the second 401 is returned
after one login and two issuances, with no third attempt; and a 403
credentials-expired body renews likewise. -/
theorem cookieSession_request_renewal_witness :
    cookieSessionRequest true (fun _ => ⟨401, none⟩) = ⟨⟨401, none⟩, 1, 2⟩ ∧
    cookieSessionRequest true (fun _ => ⟨403, some "credentials_expired"⟩) =
      ⟨⟨403, some "credentials_expired"⟩, 1, 2⟩ ∧
    cookieSessionRequest true (fun _ => ⟨200, none⟩) = ⟨⟨200, none⟩, 0, 1⟩ ∧
    cookieSessionRequest false (fun _ => ⟨401, none⟩) = ⟨⟨401, none⟩, 0, 1⟩ :=
  ⟨(cookieSession_request_renewal (fun _ => ⟨401, none⟩)).2.1 (by decide),
   (cookieSession_request_renewal
      (fun _ => ⟨403, some "credentials_expired"⟩)).2.1 (by decide),
   (cookieSession_request_renewal (fun _ => ⟨200, none⟩)).2.2 (by decide),
   (cookieSession_request_renewal (fun _ => ⟨401, none⟩)).1⟩

/-- C4: `IAMSession.request` issues against the cookie store with the
expired cookies cleared; with `auto_renew` on and no `IAMSession`
cookie held after the sweep, `login()` runs before the first issuance
even when that response is not a 401; a 401 first response triggers one
more `login()` and exactly one reissue whose response is returned
unconditionally; with `auto_renew` off there is no login at all. -/
theorem iamSession_request_renewal (autoRenew : Bool) (cookies : List Cookie)
    (responses : Nat → HttpResponse) :
    ((iamSessionRequest autoRenew cookies responses).cookiesAtIssue =
      clearExpiredCookies cookies) ∧
    (∀ c ∈ (iamSessionRequest autoRenew cookies responses).cookiesAtIssue,
      c.expired = false) ∧
    ((((clearExpiredCookies cookies).map Cookie.name).contains "IAMSession")
        = false →
      ((responses 0).status == 401) = false →
      iamSessionRequest true cookies responses =
        ⟨responses 0, 1, 1, clearExpiredCookies cookies⟩) ∧
    (((responses 0).status == 401) = true →
      iamSessionRequest true cookies responses =
        ⟨responses 1,
         (if ((clearExpiredCookies cookies).map Cookie.name).contains
            "IAMSession" then 0 else 1) + 1,
         2, clearExpiredCookies cookies⟩) ∧
    (iamSessionRequest false cookies responses =
      ⟨responses 0, 0, 1, clearExpiredCookies cookies⟩) := by
  refine ⟨?_, ?_, ?_, ?_, ?_⟩
  · unfold iamSessionRequest
    dsimp only
    split
    · rfl
    · split <;> rfl
  · intro c hc
    have h1 : (iamSessionRequest autoRenew cookies responses).cookiesAtIssue =
        clearExpiredCookies cookies := by
      unfold iamSessionRequest
      dsimp only
      split
      · rfl
      · split <;> rfl
    rw [h1] at hc
    simpa using (List.mem_filter.mp hc).2
  · intro hcookie hstatus
    unfold iamSessionRequest
    dsimp only
    rw [hcookie, hstatus]
    simp
  · intro hstatus
    unfold iamSessionRequest
    dsimp only
    rw [hstatus]
    cases hcookie : ((clearExpiredCookies cookies).map Cookie.name).contains
        "IAMSession" <;> simp
  · unfold iamSessionRequest
    simp

/-- C4 witness: the held `IAMSession` cookie is expired, so the sweep
removes it and a proactive login precedes a first issuance that
succeeds outright. -/
theorem iamSession_request_renewal_witness :
    iamSessionRequest true [⟨"IAMSession", true⟩] (fun _ => ⟨200, none⟩) =
      ⟨⟨200, none⟩, 1, 1, []⟩ ∧
    iamSessionRequest true [⟨"IAMSession", false⟩] (fun _ => ⟨401, none⟩) =
      ⟨⟨401, none⟩, 1, 2, [⟨"IAMSession", false⟩]⟩ :=
  ⟨(iamSession_request_renewal true [⟨"IAMSession", true⟩]
      (fun _ => ⟨200, none⟩)).2.2.1 (by decide) (by decide),
   (iamSession_request_renewal true [⟨"IAMSession", false⟩]
      (fun _ => ⟨401, none⟩)).2.2.2.1 (by decide)⟩

/-- C5: `_get_access_token` turns a transport-level failure into the
generic `CloudantException`; an HTTP error status is re-raised as a
`CloudantException` carrying the body's `errorMessage` when present,
else the generic message; a body lacking `access_token` fails with the
invalid-response message; and no input ever surfaces a raw
`RequestException` to the caller. -/
theorem get_access_token_errors :
    (getAccessToken .transportError =
      .error (.cloudantException genericTokenErr)) ∧
    (∀ status b, status ≥ 400 →
      getAccessToken (.response status (some b)) =
        .error (.cloudantException (b.errorMessage.getD genericTokenErr))) ∧
    (∀ status b, status < 400 → b.accessToken = none →
      getAccessToken (.response status (some b)) =
        .error (.cloudantException invalidTokenRespMsg)) ∧
    (∀ status b tok, status < 400 → b.accessToken = some tok →
      getAccessToken (.response status (some b)) = .ok tok) ∧
    (∀ outcome, getAccessToken outcome ≠ .error .rawRequestException) := by
  refine ⟨rfl, ?_, ?_, ?_, ?_⟩
  · intro status b hs
    simp [getAccessToken, hs]
  · intro status b hs hb
    simp [getAccessToken, Nat.not_le.mpr hs, hb]
  · intro status b tok hs hb
    simp [getAccessToken, Nat.not_le.mpr hs, hb]
  · intro outcome
    cases outcome with
    | transportError => simp [getAccessToken]
    | response status body =>
      cases body with
      | none => simp [getAccessToken]
      | some b =>
        simp only [getAccessToken]
        split
        · simp
        · cases b.accessToken <;> simp

/-- C5 witness. -/
theorem get_access_token_errors_witness :
    getAccessToken (.response 400 (some ⟨some "boom", none⟩)) =
      .error (.cloudantException "boom") ∧
    getAccessToken (.response 500 (some ⟨none, none⟩)) =
      .error (.cloudantException genericTokenErr) ∧
    getAccessToken (.response 200 (some ⟨none, none⟩)) =
      .error (.cloudantException invalidTokenRespMsg) ∧
    getAccessToken (.response 200 (some ⟨none, some "tok"⟩)) = .ok "tok" :=
  ⟨get_access_token_errors.2.1 400 ⟨some "boom", none⟩ (by decide),
   get_access_token_errors.2.1 500 ⟨none, none⟩ (by decide),
   get_access_token_errors.2.2.1 200 ⟨none, none⟩ (by decide) rfl,
   get_access_token_errors.2.2.2.1 200 ⟨none, some "tok"⟩ "tok" (by decide) rfl⟩

/-- C6 counterexample: the claim says construction fails with
`ConfigurationError` whenever no name is given and more than one
service is listed; but with two services the first of which lacks a
`name` field, Python's `service.get('name') == None` comparison matches
it and construction succeeds. -/
theorem cloudfoundry_ambiguous_counterexample :
    cloudFoundryService
      (.parsed [⟨none, some ⟨some "h", some "u", some "p", none⟩⟩,
                ⟨some "b", some ⟨some "h2", some "u2", some "p2", some 80⟩⟩])
      none = .ok ⟨"h", "u", "p", 443⟩ := rfl

/-- C6 (amended): construction selects the first service matching the
rule `use_first or service.get('name') == name`, where `use_first`
holds when no name is given and exactly one service is listed, and a
missing name field matches a given name of null; it fails with
`ConfigurationError` when the input is not valid JSON, when no service
matches — in particular when no name is given, more than one service is
listed and every listed service has a name — or when the matched
service misses its credentials block or a required credential field;
on success host, username and password are extracted and port defaults
to 443. -/
theorem cloudfoundry_service_selection :
    (∀ name, cloudFoundryService .malformed name =
      .error (.configurationError "Failed to decode VCAP_SERVICES JSON")) ∧
    (∀ services name,
      cfFindService services (name.isNone && services.length == 1) name
          = none →
      cloudFoundryService (.parsed services) name =
        .error (.configurationError "Missing service in VCAP_SERVICES")) ∧
    (∀ services, 1 < services.length →
      (∀ s ∈ services, s.name.isSome = true) →
      cloudFoundryService (.parsed services) none =
        .error (.configurationError "Missing service in VCAP_SERVICES")) ∧
    (∀ services name s h u pw port,
      cfFindService services (name.isNone && services.length == 1) name
          = some s →
      s.credentials = some ⟨some h, some u, some pw, port⟩ →
      cloudFoundryService (.parsed services) name =
        .ok ⟨h, u, pw, port.getD 443⟩) ∧
    (∀ services name s,
      cfFindService services (name.isNone && services.length == 1) name
          = some s →
      s.credentials = none →
      cloudFoundryService (.parsed services) name =
        .error (.configurationError "Invalid service: credentials missing")) ∧
    (∀ services name s u pw port,
      cfFindService services (name.isNone && services.length == 1) name
          = some s →
      s.credentials = some ⟨none, u, pw, port⟩ →
      cloudFoundryService (.parsed services) name =
        .error (.configurationError "Invalid service: host missing")) ∧
    (∀ services name s h u port,
      cfFindService services (name.isNone && services.length == 1) name
          = some s →
      s.credentials = some ⟨some h, u, none, port⟩ →
      cloudFoundryService (.parsed services) name =
        .error (.configurationError "Invalid service: password missing")) ∧
    (∀ services name s h pw port,
      cfFindService services (name.isNone && services.length == 1) name
          = some s →
      s.credentials = some ⟨some h, none, some pw, port⟩ →
      cloudFoundryService (.parsed services) name =
        .error (.configurationError "Invalid service: username missing")) := by
  refine ⟨fun name => rfl, ?_, ?_, ?_, ?_, ?_, ?_, ?_⟩
  · intro services name hfind
    simp [cloudFoundryService, hfind]
  · intro services hlen hnames
    have hfind : cfFindService services (services.length == 1) none = none := by
      apply List.find?_eq_none.mpr
      intro s hs
      have h1 : (services.length == 1) = false := by
        simp only [beq_eq_false_iff_ne]
        omega
      have h2 : (s.name == none) = false := by
        cases hn : s.name with
        | none => exact absurd (hn ▸ hnames s hs) (by simp)
        | some a => simp
      simp [h1, h2]
    simp [cloudFoundryService, hfind]
  · intro services name s h u pw port hfind hcred
    simp [cloudFoundryService, hfind, hcred]
  · intro services name s hfind hcred
    simp [cloudFoundryService, hfind, hcred]
  · intro services name s u pw port hfind hcred
    simp [cloudFoundryService, hfind, hcred]
  · intro services name s h u port hfind hcred
    simp [cloudFoundryService, hfind, hcred]
  · intro services name s h pw port hfind hcred
    simp [cloudFoundryService, hfind, hcred]

/-- C6 witness. -/
theorem cloudfoundry_service_selection_witness :
    cloudFoundryService
      (.parsed [⟨some "svc", some ⟨some "h", some "u", some "pw", some 8080⟩⟩])
      (some "svc") = .ok ⟨"h", "u", "pw", 8080⟩ ∧
    cloudFoundryService
      (.parsed [⟨some "a", some ⟨some "h", some "u", some "p", none⟩⟩,
                ⟨some "b", some ⟨some "h2", some "u2", some "p2", none⟩⟩])
      none = .error (.configurationError "Missing service in VCAP_SERVICES") ∧
    cloudFoundryService
      (.parsed [⟨some "svc", some ⟨none, some "u", some "pw", none⟩⟩])
      (some "svc") =
      .error (.configurationError "Invalid service: host missing") ∧
    cloudFoundryService
      (.parsed [⟨some "svc", some ⟨some "h", some "u", none, none⟩⟩])
      (some "svc") =
      .error (.configurationError "Invalid service: password missing") ∧
    cloudFoundryService
      (.parsed [⟨some "svc", some ⟨some "h", none, some "pw", none⟩⟩])
      (some "svc") =
      .error (.configurationError "Invalid service: username missing") :=
  ⟨cloudfoundry_service_selection.2.2.2.1
      [⟨some "svc", some ⟨some "h", some "u", some "pw", some 8080⟩⟩]
      (some "svc") ⟨some "svc", some ⟨some "h", some "u", some "pw", some 8080⟩⟩
      "h" "u" "pw" (some 8080) rfl rfl,
   cloudfoundry_service_selection.2.2.1
      [⟨some "a", some ⟨some "h", some "u", some "p", none⟩⟩,
       ⟨some "b", some ⟨some "h2", some "u2", some "p2", none⟩⟩]
      (by decide) (by decide),
   cloudfoundry_service_selection.2.2.2.2.2.1
      [⟨some "svc", some ⟨none, some "u", some "pw", none⟩⟩] (some "svc")
      ⟨some "svc", some ⟨none, some "u", some "pw", none⟩⟩
      (some "u") (some "pw") none rfl rfl,
   cloudfoundry_service_selection.2.2.2.2.2.2.1
      [⟨some "svc", some ⟨some "h", some "u", none, none⟩⟩] (some "svc")
      ⟨some "svc", some ⟨some "h", some "u", none, none⟩⟩
      "h" (some "u") none rfl rfl,
   cloudfoundry_service_selection.2.2.2.2.2.2.2
      [⟨some "svc", some ⟨some "h", none, some "pw", none⟩⟩] (some "svc")
      ⟨some "svc", some ⟨some "h", none, some "pw", none⟩⟩
      "h" "pw" none rfl rfl⟩

end Cloudant
